import Mathlib

/-!
Verification of the autonomous control core of the Nexus personal assistant:
the drive engine (`soul/impulse.py`), the event bus (`soul/subconscious.py`),
the plan tracker (`models/goal.py`) and the heartbeat scheduler
(`autonomous_loop.py`), shallowly embedded in Lean.  Python floats are
modelled as rationals; wall-clock-dependent quantities (elapsed minutes and
hours, `random.random()` draws) are passed as explicit parameters.
-/

namespace Nexus

/-! ## Drive engine (`soul/impulse.py`, class `ImpulseEngine`) -/

/-- The fixed set of drive names held in `ImpulseEngine.drives`. -/
inductive DriveName
  | boredom
  | social_need
  | curiosity
  | energy
  | affection
deriving DecidableEq, Repr

/-- The drive dictionary `self.drives` of `ImpulseEngine`: one rational per
fixed drive name (the source comments document them as 0.0 to 1.0). -/
structure Drives where
  boredom : ℚ
  social_need : ℚ
  curiosity : ℚ
  energy : ℚ
  affection : ℚ
deriving DecidableEq, Repr

/-- Dictionary read `self.drives[name]`. -/
def Drives.get (d : Drives) : DriveName → ℚ
  | .boredom => d.boredom
  | .social_need => d.social_need
  | .curiosity => d.curiosity
  | .energy => d.energy
  | .affection => d.affection

/-- Dictionary write `self.drives[name] = v`. -/
def Drives.set (d : Drives) : DriveName → ℚ → Drives
  | .boredom, v => { d with boredom := v }
  | .social_need, v => { d with social_need := v }
  | .curiosity, v => { d with curiosity := v }
  | .energy, v => { d with energy := v }
  | .affection, v => { d with affection := v }

/-- The initial drive values set in `ImpulseEngine.__init__`. -/
def initialDrives : Drives :=
  { boredom := 0, social_need := 1/2, curiosity := 3/10, energy := 1, affection := 1/2 }

/-- Source `ImpulseEngine.update_drives`: time-based drive growth.  The elapsed
minutes since the last action and hours since the last interaction are
explicit parameters (the source derives them from the wall clock). -/
def update_drives (minutesSinceActive hoursSinceInteraction : ℚ) (d : Drives) : Drives :=
  let d1 := if minutesSinceActive > 15 then { d with boredom := min 1 (d.boredom + 5/100) } else d
  let d2 := if hoursSinceInteraction > 4 then
    { d1 with social_need := min 1 (d1.social_need + 2/100) } else d1
  if minutesSinceActive > 10 then { d2 with energy := min 1 (d2.energy + 5/100) } else d2

/-- Source `ImpulseEngine.satisfy_drive`: reduce the named drive, clamped below at 0,
then unconditionally subtract 0.1 from `energy` (the source line
`self.drives["energy"] -= 0.1` has no clamp).  The valid-name guard
`if drive in self.drives` always holds for a `DriveName`. -/
def satisfy_drive (d : Drives) (drive : DriveName) (amount : ℚ) : Drives :=
  let d1 := d.set drive (max 0 (d.get drive - amount))
  { d1 with energy := d1.energy - 1/10 }

/-- An impulse dict as returned by `ImpulseEngine.check_impulses`. -/
structure Impulse where
  type : String
  reason : String
  motivation : String
deriving DecidableEq, Repr

/-- The boredom rule of `check_impulses` (the first threshold rule): with the
`random.random()` draw `r`, either message the user or browse the web. -/
def boredomImpulse (r : ℚ) : Impulse :=
  if r < 4/10 then
    { type := "message_user", reason := "boredom", motivation := "I'm bored, are you there?" }
  else
    { type := "browse_web", reason := "curiosity", motivation := "I want to learn something new." }

/-- The social-need rule of `check_impulses` (the second threshold rule). -/
def socialImpulse (r : ℚ) : Impulse :=
  if r < 6/10 then
    { type := "check_moltbook", reason := "social_need",
      motivation := "Feeling lonely, checking AI friends." }
  else
    { type := "message_user", reason := "affection", motivation := "Thinking about you." }

/-- The threshold evaluation in `ImpulseEngine.check_impulses` after
`update_drives` has run: suppressed entirely below the energy floor 0.2,
then the boredom rule (threshold 0.8) before the social-need rule
(threshold 0.7).  `r` is the `random.random()` draw of whichever rule fires. -/
def evaluate_impulses (d : Drives) (r : ℚ) : Option Impulse :=
  if d.energy < 2/10 then none
  else if d.boredom > 8/10 then some (boredomImpulse r)
  else if d.social_need > 7/10 then some (socialImpulse r)
  else none

/-- Source `ImpulseEngine.check_impulses`: first `update_drives`, then threshold
evaluation on the updated values. -/
def check_impulses (minutesSinceActive hoursSinceInteraction : ℚ) (d : Drives) (r : ℚ) :
    Option Impulse :=
  evaluate_impulses (update_drives minutesSinceActive hoursSinceInteraction d) r

/-! ## Plan tracker (`models/goal.py`, class `GoalTracker`)

The tracker holds at most one active `GoalPlan`.  Messages returned to the
language-model loop are modelled by inductive tags carrying the data the
source interpolates into its strings, so that which branch produced the
message stays visible. -/

/-- The `GoalState` enum. -/
inductive GoalState
  | idle
  | planning
  | executing
  | verifying
  | complete
  | failed
deriving DecidableEq, Repr

/-- The `StepStatus` enum. -/
inductive StepStatus
  | pending
  | in_progress
  | done
  | failed
  | skipped
deriving DecidableEq, Repr

/-- The `GoalStep` pydantic model. -/
structure GoalStep where
  number : Int
  description : String
  tool : String
  status : StepStatus := .pending
  outcome : Option String := none
  attempts : Nat := 0
deriving DecidableEq, Repr

/-- The `GoalPlan` pydantic model (`created_at`/`completed_at` timestamps
carry no control logic; `completed_at` is kept as a set/unset flag). -/
structure GoalPlan where
  goal : String
  steps : List GoalStep
  done_when : String
  state : GoalState := .planning
  current_step : Int := 1
  completed_at_set : Bool := false
deriving DecidableEq, Repr

/-- The `GoalCompletion` pydantic model. -/
structure GoalCompletion where
  goal : String
  success : Bool
  results : String
  steps_completed : Nat
  steps_total : Nat
deriving DecidableEq, Repr

/-- An input step dict handed to `create_plan`: the source reads the keys
`description`, `desc` and `tool` with `dict.get` defaults and ignores every
other key, so a `number` key carried by the caller is modelled and ignored. -/
structure StepDict where
  description : Option String := none
  desc : Option String := none
  tool : Option String := none
  number : Option Int := none
deriving DecidableEq, Repr

/-- The `GoalTracker` state: the active plan, the archive of completions,
and the anti-loop state (`_recent_tool_calls`, capped at 10, and
`_consecutive_observe_count`). -/
structure GoalTracker where
  active_plan : Option GoalPlan := none
  completed_goals : List GoalCompletion := []
  recent_tool_calls : List String := []
  consecutive_observe_count : Nat := 0
deriving DecidableEq, Repr

/-- The `_max_tool_history` constant of `GoalTracker.__init__`. -/
def max_tool_history : Nat := 10

/-- The step-building loop of `create_plan`: `enumerate(steps, 1)` assigns
numbers by list position starting at `i`, with the source's `dict.get`
default chain for description and tool. -/
def mkGoalSteps : Nat → List StepDict → List GoalStep
  | _, [] => []
  | i, d :: rest =>
    { number := (i : Int),
      description := d.description.getD (d.desc.getD ("Step " ++ toString i)),
      tool := d.tool.getD "unknown" } :: mkGoalSteps (i + 1) rest

/-- Source `GoalTracker.create_plan`: replace the active plan by a fresh one in
state `EXECUTING` with `current_step = 1`, mark the first step (if any)
`IN_PROGRESS`, and reset both anti-loop counters.  The source has no
empty-list check: an empty `steps` list yields an active plan with no
steps. -/
def create_plan (t : GoalTracker) (goal : String) (steps : List StepDict)
    (done_when : String) : GoalTracker :=
  let goal_steps := mkGoalSteps 1 steps
  let goal_steps := match goal_steps with
    | [] => []
    | s :: rest => { s with status := StepStatus.in_progress } :: rest
  let plan : GoalPlan :=
    { goal := goal, steps := goal_steps, done_when := done_when, state := .executing,
      current_step := 1 }
  { t with active_plan := some plan, recent_tool_calls := [], consecutive_observe_count := 0 }

/-- Result string of `complete_step`, by branch. -/
inductive CompleteMsg
  | noPlan
  | notFound (n : Int)
  | advanced (n : Int) (next : Int)
  | allDone (goal : String)
deriving DecidableEq, Repr

/-- Result string of `fail_step`, by branch: `failedPermanent` is the
"FAILED after N attempts" give-up message, `retry` the "attempt N of 3
failed, try a different approach" message. -/
inductive FailMsg
  | noPlan
  | notFound (n : Int)
  | failedPermanent (n : Int) (attempts : Nat)
  | retry (n : Int) (attempts : Nat)
deriving DecidableEq, Repr

/-- In-place mutation of the first step whose `number` equals `n`
(`next(s for s in steps if s.number == step_number)`): set it `DONE` and
record the outcome. -/
def markStepDone (n : Int) (outcome : String) : List GoalStep → List GoalStep
  | [] => []
  | s :: rest =>
    if s.number = n then { s with status := .done, outcome := some outcome } :: rest
    else s :: markStepDone n outcome rest

/-- Source `next((s for s in steps if s.status == PENDING), None)` followed by the
in-place `status = IN_PROGRESS`: returns the updated list and the chosen
step's number, or `none` when no step is `PENDING`. -/
def markNextPending : List GoalStep → Option (List GoalStep × Int)
  | [] => none
  | s :: rest =>
    if s.status = .pending then some ({ s with status := .in_progress } :: rest, s.number)
    else (markNextPending rest).map (fun p => (s :: p.1, p.2))

/-- Source `GoalTracker.complete_step`: mark step `n` `DONE`, then advance the
first `PENDING` step to `IN_PROGRESS`, or — if none remains — transition
the plan to `COMPLETE` and archive a `GoalCompletion`. -/
def complete_step (t : GoalTracker) (n : Int) (outcome : String) : GoalTracker × CompleteMsg :=
  match t.active_plan with
  | none => (t, .noPlan)
  | some plan =>
    match plan.steps.find? (fun s => s.number = n) with
    | none => (t, .notFound n)
    | some _ =>
      let steps1 := markStepDone n outcome plan.steps
      match markNextPending steps1 with
      | some (steps2, m) =>
        ({ t with active_plan := some { plan with steps := steps2, current_step := m } },
          .advanced n m)
      | none =>
        let plan2 :=
          { plan with steps := steps1, state := GoalState.complete, completed_at_set := true }
        let completion : GoalCompletion :=
          { goal := plan.goal, success := true, results := outcome,
            steps_completed := (steps1.filter (fun s => s.status = .done)).length,
            steps_total := steps1.length }
        ({ t with active_plan := some plan2,
                  completed_goals := t.completed_goals ++ [completion] },
          .allDone plan.goal)

/-- The attempt bump of `fail_step` applied to one step: `attempts += 1`,
and once `attempts >= 3` the status becomes `FAILED` with a failure
outcome. -/
def failUpdate (reason : String) (s : GoalStep) : GoalStep :=
  let a := s.attempts + 1
  if a ≥ 3 then
    { s with attempts := a, status := .failed,
             outcome := some ("FAILED after " ++ toString a ++ " attempts: " ++ reason) }
  else { s with attempts := a }

/-- In-place mutation of the first step whose `number` equals `n` with
`failUpdate`. -/
def failSteps (n : Int) (reason : String) : List GoalStep → List GoalStep
  | [] => []
  | s :: rest =>
    if s.number = n then failUpdate reason s :: rest
    else s :: failSteps n reason rest

/-- Source `GoalTracker.fail_step`: increment the step's attempt counter; at three
or more attempts mark it `FAILED` and return the give-up message, otherwise
return the retry message.  There is no saturation: every call increments
`attempts`. -/
def fail_step (t : GoalTracker) (n : Int) (reason : String) : GoalTracker × FailMsg :=
  match t.active_plan with
  | none => (t, .noPlan)
  | some plan =>
    match plan.steps.find? (fun s => s.number = n) with
    | none => (t, .notFound n)
    | some s =>
      let a := s.attempts + 1
      ({ t with active_plan := some { plan with steps := failSteps n reason plan.steps } },
        if a ≥ 3 then .failedPermanent n a else .retry n a)

/-- The last `n` elements of a list (`l[-n:]` in Python for `n > 0`). -/
def lastN (n : Nat) (l : List String) : List String := l.drop (l.length - n)

/-- The sliding-window trim of `record_tool_call`: after appending, pop the
front once the window exceeds `_max_tool_history`. -/
def trimRecent (l : List String) : List String :=
  if l.length > max_tool_history then l.drop 1 else l

/-- Count of the most common element: the count of
`max(set(window), key=window.count)` equals the maximum multiplicity, and
the tie among maximisers is irrelevant because only the count is compared. -/
def maxCount (l : List String) : Nat := (l.map (fun x => l.count x)).foldr max 0

/-- The dominant-tool window check at the end of `record_tool_call`: once at
least 7 calls are recorded, warn when the most common tool of the last 7
accounts for 5 or more of them. -/
def dominantWarning (recent : List String) : Option String :=
  if recent.length ≥ 7 then
    if maxCount (lastN 7 recent) ≥ 5 then some "LOOP DETECTED: same tool 5 of last 7 calls"
    else none
  else none

/-- Source `GoalTracker.record_tool_call`: append to the 10-entry sliding window;
a `see_screen` call increments the consecutive-observe counter and warns
once the counter reaches 2 (returning immediately, skipping the window
check); any other tool resets the counter to 0; otherwise the dominant-tool
window check runs. -/
def record_tool_call (t : GoalTracker) (tool_name : String) : GoalTracker × Option String :=
  let recent := trimRecent (t.recent_tool_calls ++ [tool_name])
  if tool_name = "see_screen" then
    let c := t.consecutive_observe_count + 1
    let t1 := { t with recent_tool_calls := recent, consecutive_observe_count := c }
    if c ≥ 2 then (t1, some "ANTI-LOOP WARNING: consecutive see_screen calls")
    else (t1, dominantWarning recent)
  else
    let t1 := { t with recent_tool_calls := recent, consecutive_observe_count := 0 }
    (t1, dominantWarning recent)

/-- Replay a sequence of `record_tool_call` invocations from a fresh
tracker, keeping the final state. -/
def replayCalls (calls : List String) : GoalTracker :=
  calls.foldl (fun t c => (record_tool_call t c).1) {}

/-- The leading run of `"see_screen"` entries of a call list. -/
def leadObs : List String → Nat
  | [] => 0
  | x :: xs => if x = "see_screen" then leadObs xs + 1 else 0

/-- The trailing run of `"see_screen"` entries of a call list: the value the
consecutive-observe counter holds after replaying the list. -/
def trailingObs (l : List String) : Nat := leadObs l.reverse

/-- Number of `IN_PROGRESS` steps in a step list. -/
def inProgressCount (l : List GoalStep) : Nat :=
  (l.filter (fun s => s.status = .in_progress)).length

/-- Number of `IN_PROGRESS` steps of the active plan (0 when idle). -/
def trackerInProgress (t : GoalTracker) : Nat :=
  match t.active_plan with
  | none => 0
  | some p => inProgressCount p.steps

/-- Status of the first step of the active plan whose `number` equals `n`,
as `complete_step`/`fail_step` would look it up. -/
def findStatus (t : GoalTracker) (n : Int) : Option StepStatus :=
  t.active_plan.bind (fun p => (p.steps.find? (fun s => s.number = n)).map (fun s => s.status))

/-- Attempt counter of the first step of the active plan whose `number`
equals `n`. -/
def findAttempts (t : GoalTracker) (n : Int) : Option Nat :=
  t.active_plan.bind (fun p => (p.steps.find? (fun s => s.number = n)).map (fun s => s.attempts))

/-- Tracker states reachable by `create_plan` / `complete_step` / `fail_step`
sequences in which every `complete_step` call targets the step currently
`IN_PROGRESS` (the discipline the source's calling agent is instructed to
follow: complete the step you are on). -/
inductive ReachableGuarded : GoalTracker → Prop
  | init : ReachableGuarded {}
  | create (t : GoalTracker) (g : String) (ds : List StepDict) (dw : String) :
      ReachableGuarded t → ReachableGuarded (create_plan t g ds dw)
  | complete (t : GoalTracker) (n : Int) (outcome : String) :
      ReachableGuarded t → findStatus t n = some .in_progress →
      ReachableGuarded (complete_step t n outcome).1
  | fail (t : GoalTracker) (n : Int) (reason : String) :
      ReachableGuarded t → ReachableGuarded (fail_step t n reason).1

/-! ## Event bus (`soul/subconscious.py`, class `NexusSubconscious`)

`publish` stores the event in the bounded history, updates the world-state
snapshot, dispatches to subscribers (the bus catches subscriber exceptions,
so dispatch cannot fail), and — for priority `>= HIGH` — executes
`self.event_queue.put((-int(priority), event))`.  `queue.PriorityQueue.put`
is `heapq.heappush` on the backing list, and `heapq` orders entries with the
tuple `<` comparison.  Python compares tuples lexicographically: when the
first components (the negated priorities) are equal and the second components
are distinct objects, it falls through to `NexusEvent < NexusEvent`, which
raises `TypeError` because `NexusEvent` defines no ordering.  The embedding
therefore runs the queue operations in `Except String`.  Events in queue
entries are identified by their publish index (Python compares them by
object identity under `==`, and each publish creates a fresh object). -/

/-- The `EventPriority` `IntEnum` of `subconscious.py`. -/
inductive EventPriority
  | low
  | normal
  | high
  | critical
deriving DecidableEq, Repr

/-- Conversion `int(priority)` for the `IntEnum`. -/
def EventPriority.toInt : EventPriority → Int
  | .low => 0
  | .normal => 1
  | .high => 2
  | .critical => 3

/-- A priority-queue entry `(-int(priority), event)`, the event represented
by its publish index. -/
abbrev HeapEntry : Type := Int × Nat

/-- Python's `<` on two heap entries: lexicographic tuple comparison.  Equal
first components force a comparison of the two `NexusEvent` objects; if they
are distinct objects this raises `TypeError` (no `__lt__` on `NexusEvent`),
and two entries holding the same object compare as not-less-than. -/
def entryLt (a b : HeapEntry) : Except String Bool :=
  if a.1 ≠ b.1 then .ok (decide (a.1 < b.1))
  else if a.2 = b.2 then .ok false
  else .error "TypeError: unorderable NexusEvent instances"

/-- Source `heapq._siftdown(heap, 0, pos)`: walk `newitem` up from index `pos`,
moving larger parents down, placing `newitem` when its parent is not
larger.  A comparison failure propagates as the Python exception would.
The loop strictly decreases `pos`, so running it with `fuel = pos` is exact;
the fuel only makes the recursion structural. -/
def siftdownAux (heap : List HeapEntry) (newitem : HeapEntry) :
    (fuel : Nat) → (pos : Nat) → Except String (List HeapEntry)
  | _, 0 => .ok (heap.set 0 newitem)
  | 0, pos + 1 => .ok (heap.set (pos + 1) newitem)
  | fuel + 1, pos + 1 =>
    let parentpos := pos / 2
    match heap.get? parentpos with
    | none => .ok (heap.set (pos + 1) newitem)
    | some parent => do
      let lt ← entryLt newitem parent
      if lt then siftdownAux (heap.set (pos + 1) parent) newitem fuel parentpos
      else .ok (heap.set (pos + 1) newitem)

/-- Source `heapq.heappush(heap, item)`: append, then sift up from the last slot. -/
def heappush (heap : List HeapEntry) (item : HeapEntry) : Except String (List HeapEntry) :=
  siftdownAux (heap ++ [item]) item heap.length heap.length

/-- A published `NexusEvent`, the payload left opaque: the publish index
stands for object identity. -/
structure NexusEvent where
  idx : Nat
  channel : String
  type : String
  priority : EventPriority
deriving DecidableEq, Repr

/-- The bus state touched by `publish`: the bounded history and the
priority queue's backing heap (the snapshot table and subscriber list do not
affect publish success or the queue, and are omitted). -/
structure SubconsciousState where
  event_history : List NexusEvent := []
  event_queue : List HeapEntry := []
  next_idx : Nat := 0
deriving DecidableEq, Repr

/-- Source `NexusSubconscious.publish`: append to history (evicting beyond 1000),
then for `priority >= HIGH` push `(-int(priority), event)` onto the heap.
Returns the published event on success; a `TypeError` raised inside the
heap push escapes to the caller. -/
def publish (s : SubconsciousState) (channel type : String) (priority : EventPriority) :
    Except String (SubconsciousState × NexusEvent) := do
  let event : NexusEvent :=
    { idx := s.next_idx, channel := channel, type := type, priority := priority }
  let hist := s.event_history ++ [event]
  let hist := if hist.length > 1000 then hist.drop 1 else hist
  if priority.toInt ≥ EventPriority.high.toInt then
    let q ← heappush s.event_queue (-priority.toInt, event.idx)
    return ({ event_history := hist, event_queue := q, next_idx := s.next_idx + 1 }, event)
  else
    return ({ event_history := hist, event_queue := s.event_queue, next_idx := s.next_idx + 1 },
      event)

/-- Returns `true` on `.ok`, `false` on `.error`. -/
def exceptOk {α : Type} : Except String α → Bool
  | .ok _ => true
  | .error _ => false

/-! ## Heartbeat scheduler (`autonomous_loop.py`, `NexusHeartbeat._do_heartbeat`)

The embedding gives the dispatch-trace semantics of one tick: the value of
`do_heartbeat` is the list of invocations that actually go through the
registered handler table `self.action_handlers`, and an exception anywhere
in the tick ends it (the caller `_heartbeat_loop` catches it) with the
dispatches made so far.

Two facts of the source decide where exceptions occur:
* `_dispatch_action` is called by every event reaction and by the deep-work
  announcement, but no method or attribute of that name is defined or
  assigned anywhere in the repository, so each of those calls raises
  `AttributeError` before reaching any handler;
* the `USER_SEEN` reaction reads `impulse.drives["social"]`, a key absent
  from the drives dict (which holds `social_need`), raising `KeyError`.

The only call that reaches the handler table is therefore the impulse
branch `self.action_handlers["message_user"](active_impulse)`.  External
collaborator results (brainstormed task, impulse, random draw) enter as
explicit environment fields; the reflection and social-engagement passes
(steps 3 and 4) call collaborators directly, never the handler table, and
are omitted from the trace. -/

/-- Reaction of the per-event `if/elif` chain of `_do_heartbeat` to one
drained high-priority event, by event type: `.error` marks the reactions
that raise (`_dispatch_action` undefined; `drives["social"]` missing),
`.ok` the ones that only log or pass. -/
def reactToEvent (etype : String) : Except String Unit :=
  if etype = "ERROR_ON_SCREEN" then .error "AttributeError: _dispatch_action"
  else if etype = "BATTERY_LOW" then .error "AttributeError: _dispatch_action"
  else if etype = "INTERNET_LOST" then .ok ()
  else if etype = "TEXT_COPIED" then .ok ()
  else if etype = "VOICE_COMMAND" then .error "AttributeError: _dispatch_action"
  else if etype = "DEVICE_CONNECTED" then .error "AttributeError: _dispatch_action"
  else if etype = "USER_SEEN" then .error "KeyError: social"
  else .ok ()

/-- The `for event in events` reaction loop, stopping at the first raised
exception. -/
def processEvents : List String → Except String Unit
  | [] => .ok ()
  | e :: rest => do
    reactToEvent e
    processEvents rest

/-- The 30%-chance fallback impulse injected when `check_impulses` returned
nothing. -/
def spontaneousImpulse : Impulse :=
  { type := "message_user", reason := "Spontaneous Thought",
    motivation := "I just had a thought I wanted to share." }

/-- The per-tick environment: everything outside the scheduler that one
execution of `_do_heartbeat` consumes. -/
structure HeartbeatEnv where
  /-- Flag `self.subagents_started` already set by an earlier tick. -/
  subagents_started : Bool
  /-- Combined outcome of the one-time `start()` calls on all subagents
  (external collaborators; a raise aborts the tick). -/
  agents_start : Except String Unit
  /-- Types of the events returned by `get_high_priority_events()`. -/
  events : List String
  /-- Value of `impulse.drives["boredom"]` at the deep-work gate. -/
  boredom : ℚ
  /-- Value of `impulse.drives["energy"]` at the deep-work gate. -/
  energy : ℚ
  /-- Outcome of `project_manager.brainstorm_task()` (objective text). -/
  brainstorm : Except String (Option String)
  /-- Result of `impulse.check_impulses()` this tick. -/
  impulse_result : Option Impulse
  /-- Whether the spontaneous-thought draw `random.random() < 0.3` hit. -/
  spontaneous : Bool
  /-- Registered names in `self.action_handlers`. -/
  handlers : List String

/-- Steps 3 and 3b of `_do_heartbeat`: take the engine's impulse or, failing
that, the spontaneous fallback; a `message_user` impulse with a registered
handler is the one dispatch through the handler table; `check_moltbook`
falls through to the social logic, which posts directly rather than through
a handler. -/
def impulseDispatch (env : HeartbeatEnv) : List String :=
  let active_impulse :=
    match env.impulse_result with
    | some imp => some imp
    | none => if env.spontaneous then some spontaneousImpulse else none
  match active_impulse with
  | some imp =>
    if imp.type = "message_user" ∧ "message_user" ∈ env.handlers then ["message_user"]
    else []
  | none => []

/-- One execution of `NexusHeartbeat._do_heartbeat`, returning the list of
invocations dispatched through `self.action_handlers`: subagent startup
(aborting if a producer's `start()` raises), the event-reaction loop (whose
reacting branches all raise before reaching a handler), the deep-work gate
(boredom above 0.6 and energy above 0.4; a brainstormed task leads straight
into the raising `_dispatch_action` announcement), then the impulse branch. -/
def do_heartbeat (env : HeartbeatEnv) : List String :=
  if env.subagents_started = false ∧ exceptOk env.agents_start = false then []
  else
    match processEvents env.events with
    | .error _ => []
    | .ok _ =>
      if env.boredom > 6/10 ∧ env.energy > 4/10 then
        match env.brainstorm with
        | .error _ => []
        | .ok (some _) => []
        | .ok none => impulseDispatch env
      else impulseDispatch env

end Nexus

namespace Nexus

/-- C3 (code bug exhibit): from the engine's initial state, the single call
`satisfy_drive("energy", 1.0)` drives `energy` to -0.1, leaving [0,1]:
the clamp `max(0.0, ...)` is applied to the named drive, but the subsequent
`self.drives["energy"] -= 0.1` is unclamped. -/
theorem satisfy_energy_escapes_interval :
    (satisfy_drive initialDrives DriveName.energy 1).energy = -(1/10) ∧
      (satisfy_drive initialDrives DriveName.energy 1).energy < 0 := by
  constructor <;> norm_num [satisfy_drive, initialDrives, Drives.get, Drives.set]

/-- C2 (code bug exhibit): publishing event A with priority HIGH succeeds,
but publishing a second HIGH event B on the same channel then raises
`TypeError`: `heappush` compares `(-2, B) < (-2, A)`, the equal negated
priorities fall through to comparing the two `NexusEvent` objects, and
`NexusEvent` is unorderable.  The second publish call therefore fails
instead of queueing B behind A, so a third event C is never reached and no
drain can return `[A, B, C]`. -/
theorem publish_second_high_event_raises :
    exceptOk (publish {} "system" "A" EventPriority.high) = true ∧
      exceptOk (do
        let (s1, _) ← publish {} "system" "A" EventPriority.high
        publish s1 "system" "B" EventPriority.high) = false := by
  constructor <;> rfl

/-- C9: `check_impulses` returns `None` whenever the (post-update) energy
drive is below the floor 0.2; otherwise, when both the boredom threshold
(0.8) and the social-need threshold (0.7) are exceeded, the returned impulse
is the one produced by the boredom rule — the first matching rule in the
fixed priority order, ahead of the social-need rule. -/
theorem check_impulses_priority (m h r : ℚ) (d : Drives) :
    ((update_drives m h d).energy < 2/10 → check_impulses m h d r = none) ∧
      (2/10 ≤ (update_drives m h d).energy → 8/10 < (update_drives m h d).boredom →
        7/10 < (update_drives m h d).social_need →
        check_impulses m h d r = some (boredomImpulse r)) := by
  constructor
  · intro hlow
    simp [check_impulses, evaluate_impulses, hlow]
  · intro hen hb _
    simp [check_impulses, evaluate_impulses, not_lt.mpr hen, hb]

/-- Witness for C9 at concrete drive values: a low-energy state yields no
impulse, and a high-boredom, high-social-need, sufficient-energy state
yields the boredom rule's impulse. -/
theorem check_impulses_priority_witness :
    check_impulses 0 0
        { boredom := 9/10, social_need := 8/10, curiosity := 0, energy := 1/10, affection := 0 }
        (1/2) = none ∧
      check_impulses 0 0
        { boredom := 9/10, social_need := 8/10, curiosity := 0, energy := 1/2, affection := 0 }
        (1/2) = some (boredomImpulse (1/2)) := by
  constructor
  · exact (check_impulses_priority 0 0 (1/2)
      { boredom := 9/10, social_need := 8/10, curiosity := 0, energy := 1/10, affection := 0 }).1
      (by norm_num [update_drives])
  · exact (check_impulses_priority 0 0 (1/2)
      { boredom := 9/10, social_need := 8/10, curiosity := 0, energy := 1/2, affection := 0 }).2
      (by norm_num [update_drives]) (by norm_num [update_drives]) (by norm_num [update_drives])

theorem impulseDispatch_length_le (env : HeartbeatEnv) : (impulseDispatch env).length ≤ 1 := by
  unfold impulseDispatch
  rcases env.impulse_result with _ | imp
  · by_cases hs : env.spontaneous
    · simp only [hs, if_true]
      split <;> simp
    · simp [hs]
  · simp only []
    split <;> simp

/-- C1: a single execution of `_do_heartbeat` dispatches at most one
invocation through the registered handler table, over every environment
(drained events, drive levels, brainstormed task, impulse, random draw,
handler registry).  The event reactions and the deep-work announcement call
the undefined `_dispatch_action` (or read the missing `drives["social"]`
key) and so raise before reaching a handler; the only dispatch that can
occur is the single impulse-branch call. -/
theorem do_heartbeat_at_most_one_dispatch (env : HeartbeatEnv) :
    (do_heartbeat env).length ≤ 1 := by
  unfold do_heartbeat
  split
  · simp
  · split
    · simp
    · split
      · split
        · simp
        · simp
        · exact impulseDispatch_length_le env
      · exact impulseDispatch_length_le env

theorem failUpdate_number (r : String) (s : GoalStep) : (failUpdate r s).number = s.number := by
  unfold failUpdate
  dsimp only
  split <;> rfl

theorem find_failSteps (n : Int) (r : String) :
    ∀ (l : List GoalStep) (s : GoalStep), l.find? (fun x => x.number = n) = some s →
      (failSteps n r l).find? (fun x => x.number = n) = some (failUpdate r s) := by
  intro l
  induction l with
  | nil => intro s h; simp at h
  | cons a rest ih =>
    intro s h
    by_cases ha : a.number = n
    · rw [List.find?_cons_of_pos _ (by simp [ha])] at h
      cases h
      simp only [failSteps, if_pos ha]
      exact List.find?_cons_of_pos _ (by simp [failUpdate_number, ha])
    · rw [List.find?_cons_of_neg _ (by simp [ha])] at h
      simp only [failSteps, if_neg ha]
      rw [List.find?_cons_of_neg _ (by simp [ha])]
      exact ih s h

theorem fail_step_eq (t : GoalTracker) (p : GoalPlan) (n : Int) (r : String) (s : GoalStep)
    (hplan : t.active_plan = some p)
    (hfind : p.steps.find? (fun x => x.number = n) = some s) :
    fail_step t n r =
      ({ t with active_plan := some { p with steps := failSteps n r p.steps } },
        if s.attempts + 1 ≥ 3 then FailMsg.failedPermanent n (s.attempts + 1)
        else FailMsg.retry n (s.attempts + 1)) := by
  unfold fail_step
  rw [hplan]
  simp [hfind]

/-- Amended C4: three `fail_step` calls on the same existing fresh step
transition it to `FAILED` with `attempts = 3`, and a fourth call still
reports the FAILED/give-up message and leaves the step `FAILED` — but it
increments `attempts` to 4 (the source runs `step.attempts += 1`
unconditionally; there is no saturation at the ceiling). -/
theorem fail_step_retry_ceiling (t : GoalTracker) (p : GoalPlan) (n : Int) (s0 : GoalStep)
    (r1 r2 r3 r4 : String) (hplan : t.active_plan = some p)
    (hfind : p.steps.find? (fun x => x.number = n) = some s0) (h0 : s0.attempts = 0) :
    (fail_step (fail_step (fail_step t n r1).1 n r2).1 n r3).2 = FailMsg.failedPermanent n 3 ∧
      findStatus (fail_step (fail_step (fail_step t n r1).1 n r2).1 n r3).1 n =
        some StepStatus.failed ∧
      findAttempts (fail_step (fail_step (fail_step t n r1).1 n r2).1 n r3).1 n = some 3 ∧
      (fail_step (fail_step (fail_step (fail_step t n r1).1 n r2).1 n r3).1 n r4).2 =
        FailMsg.failedPermanent n 4 ∧
      findStatus (fail_step (fail_step (fail_step (fail_step t n r1).1 n r2).1 n r3).1 n r4).1 n =
        some StepStatus.failed ∧
      findAttempts
        (fail_step (fail_step (fail_step (fail_step t n r1).1 n r2).1 n r3).1 n r4).1 n =
        some 4 := by
  have e1 := fail_step_eq t p n r1 s0 hplan hfind
  have hf1 := find_failSteps n r1 p.steps s0 hfind
  have hs1 : failUpdate r1 s0 = { s0 with attempts := 1 } := by
    unfold failUpdate
    rw [h0]
    norm_num
  rw [hs1] at hf1
  have e2 := fail_step_eq (fail_step t n r1).1 { p with steps := failSteps n r1 p.steps } n r2
    { s0 with attempts := 1 } (by rw [e1]) hf1
  have hf2 := find_failSteps n r2 (failSteps n r1 p.steps) { s0 with attempts := 1 } hf1
  have hs2 : failUpdate r2 { s0 with attempts := 1 } = { s0 with attempts := 2 } := by
    unfold failUpdate
    norm_num
  rw [hs2] at hf2
  have e3 := fail_step_eq (fail_step (fail_step t n r1).1 n r2).1
    { p with steps := failSteps n r2 (failSteps n r1 p.steps) } n r3
    { s0 with attempts := 2 } (by rw [e2]) hf2
  have hf3 := find_failSteps n r3 (failSteps n r2 (failSteps n r1 p.steps))
    { s0 with attempts := 2 } hf2
  have hs3 : failUpdate r3 { s0 with attempts := 2 } =
      { s0 with attempts := 3, status := .failed,
                outcome := some ("FAILED after " ++ toString 3 ++ " attempts: " ++ r3) } := by
    unfold failUpdate
    norm_num
  rw [hs3] at hf3
  have e4 := fail_step_eq (fail_step (fail_step (fail_step t n r1).1 n r2).1 n r3).1
    { p with steps := failSteps n r3 (failSteps n r2 (failSteps n r1 p.steps)) } n r4
    { s0 with attempts := 3, status := .failed,
              outcome := some ("FAILED after " ++ toString 3 ++ " attempts: " ++ r3) }
    (by rw [e3]) hf3
  have hf4 := find_failSteps n r4 (failSteps n r3 (failSteps n r2 (failSteps n r1 p.steps)))
    { s0 with attempts := 3, status := .failed,
              outcome := some ("FAILED after " ++ toString 3 ++ " attempts: " ++ r3) } hf3
  have hs4 : failUpdate r4
      { s0 with attempts := 3, status := .failed,
                outcome := some ("FAILED after " ++ toString 3 ++ " attempts: " ++ r3) } =
      { s0 with attempts := 4, status := .failed,
                outcome := some ("FAILED after " ++ toString 4 ++ " attempts: " ++ r4) } := by
    unfold failUpdate
    norm_num
  rw [hs4] at hf4
  refine ⟨?_, ?_, ?_, ?_, ?_, ?_⟩
  · rw [e3]
    norm_num
  · rw [e3]
    simp [findStatus, hf3]
  · rw [e3]
    simp [findAttempts, hf3]
  · rw [e4]
    norm_num
  · rw [e4]
    simp [findStatus, hf4]
  · rw [e4]
    simp [findAttempts, hf4]

/-- Witness for the amended C4 at a concrete two-step plan: three failures
of step 2 yield `FAILED` with 3 attempts; the fourth still reports the
FAILED message with the counter at 4. -/
theorem fail_step_retry_ceiling_witness :
    (fail_step (fail_step (fail_step (create_plan {} "g" [{}, {}] "w") 2 "x").1 2 "x").1
        2 "x").2 = FailMsg.failedPermanent 2 3 ∧
      findStatus (fail_step (fail_step (fail_step (create_plan {} "g" [{}, {}] "w") 2 "x").1
        2 "x").1 2 "x").1 2 = some StepStatus.failed ∧
      findAttempts (fail_step (fail_step (fail_step (create_plan {} "g" [{}, {}] "w") 2 "x").1
        2 "x").1 2 "x").1 2 = some 3 ∧
      (fail_step (fail_step (fail_step (fail_step (create_plan {} "g" [{}, {}] "w") 2 "x").1
        2 "x").1 2 "x").1 2 "x").2 = FailMsg.failedPermanent 2 4 ∧
      findStatus (fail_step (fail_step (fail_step (fail_step (create_plan {} "g" [{}, {}] "w")
        2 "x").1 2 "x").1 2 "x").1 2 "x").1 2 = some StepStatus.failed ∧
      findAttempts (fail_step (fail_step (fail_step (fail_step (create_plan {} "g" [{}, {}] "w")
        2 "x").1 2 "x").1 2 "x").1 2 "x").1 2 = some 4 :=
  fail_step_retry_ceiling (create_plan {} "g" [{}, {}] "w")
    { goal := "g",
      steps := [{ number := 1, description := "Step 1", tool := "unknown",
                  status := .in_progress },
                { number := 2, description := "Step 2", tool := "unknown" }],
      done_when := "w", state := .executing, current_step := 1 }
    2 { number := 2, description := "Step 2", tool := "unknown" } "x" "x" "x" "x"
    (by decide) (by decide) rfl

/-- C4 counterexample: after three `fail_step(2, "x")` calls the step is
`FAILED` with `attempts = 3`, but the fourth call — while still reporting
the FAILED message — leaves `attempts = 4`, not 3: the source increments
the counter unconditionally, refuting "without incrementing attempts any
further". -/
theorem fail_step_fourth_call_increments :
    findAttempts (fail_step (fail_step (fail_step (create_plan {} "g" [{}, {}, {}] "w")
        2 "x").1 2 "x").1 2 "x").1 2 = some 3 ∧
      (fail_step (fail_step (fail_step (fail_step (create_plan {} "g" [{}, {}, {}] "w")
        2 "x").1 2 "x").1 2 "x").1 2 "x").2 = FailMsg.failedPermanent 2 4 ∧
      findAttempts (fail_step (fail_step (fail_step (fail_step (create_plan {} "g" [{}, {}, {}]
        "w") 2 "x").1 2 "x").1 2 "x").1 2 "x").1 2 = some 4 ∧
      ¬ findAttempts (fail_step (fail_step (fail_step (fail_step (create_plan {} "g" [{}, {}, {}]
        "w") 2 "x").1 2 "x").1 2 "x").1 2 "x").1 2 = some 3 := by
  refine ⟨rfl, rfl, rfl, ?_⟩
  decide

/-- C5 counterexample: `create_plan` with an empty step list is not
rejected: it installs an active plan with zero steps in state `EXECUTING`
(the source has no empty-list check and no `EmptyPlan` error of any
kind), refuting both the rejection and the no-plan-installed parts of the
claim. -/
theorem create_plan_empty_installs_plan :
    (create_plan {} "g" [] "w").active_plan =
      some { goal := "g", steps := [], done_when := "w", state := .executing,
             current_step := 1 } := rfl

/-- Amended C5: for every tracker state, `create_plan` with an empty step
list is accepted without any error and installs an active plan with zero
steps in state `EXECUTING` with `current_step = 1`. -/
theorem create_plan_empty_accepted (t : GoalTracker) (g dw : String) :
    (create_plan t g [] dw).active_plan =
      some { goal := g, steps := [], done_when := dw, state := .executing,
             current_step := 1 } := rfl

theorem find_markStepDone (n : Int) (o : String) :
    ∀ (l : List GoalStep) (s : GoalStep), l.find? (fun x => x.number = n) = some s →
      (markStepDone n o l).find? (fun x => x.number = n) =
        some { s with status := .done, outcome := some o } := by
  intro l
  induction l with
  | nil => intro s h; simp at h
  | cons a rest ih =>
    intro s h
    by_cases ha : a.number = n
    · rw [List.find?_cons_of_pos _ (by simp [ha])] at h
      cases h
      simp only [markStepDone, if_pos ha]
      exact List.find?_cons_of_pos _ (by simp [ha])
    · rw [List.find?_cons_of_neg _ (by simp [ha])] at h
      simp only [markStepDone, if_neg ha]
      rw [List.find?_cons_of_neg _ (by simp [ha])]
      exact ih s h

theorem markNextPending_find (n : Int) :
    ∀ (l l' : List GoalStep) (m : Int), markNextPending l = some (l', m) →
      ∀ x, l.find? (fun s => s.number = n) = some x → x.status ≠ .pending →
        l'.find? (fun s => s.number = n) = some x := by
  intro l
  induction l with
  | nil =>
    intro l' m h
    simp [markNextPending] at h
  | cons a rest ih =>
    intro l' m h x hf hx
    by_cases hp : a.status = .pending
    · simp only [markNextPending, if_pos hp] at h
      cases h
      by_cases ha : a.number = n
      · rw [List.find?_cons_of_pos _ (by simp [ha])] at hf
        cases hf
        exact absurd hp hx
      · rw [List.find?_cons_of_neg _ (by simp [ha])] at hf
        rw [List.find?_cons_of_neg _ (by simp [ha])]
        exact hf
    · simp only [markNextPending, if_neg hp] at h
      rcases Option.map_eq_some'.mp h with ⟨⟨l'', m''⟩, hrest, heq⟩
      cases heq
      by_cases ha : a.number = n
      · rw [List.find?_cons_of_pos _ (by simp [ha])] at hf
        cases hf
        exact List.find?_cons_of_pos _ (by simp [ha])
      · rw [List.find?_cons_of_neg _ (by simp [ha])] at hf
        rw [List.find?_cons_of_neg _ (by simp [ha])]
        exact ih l'' m'' hrest x hf hx

/-- Amended C7: a step that has become `FAILED` after the retry ceiling is
not protected from completion: a subsequent `complete_step` call on that
step number marks it `DONE` (the source sets `status = DONE` on whatever
step it finds, with no check of the previous status), so `FAILED` is not
permanent. -/
theorem complete_step_overrides_failed (t : GoalTracker) (p : GoalPlan) (n : Int)
    (s : GoalStep) (o : String) (hplan : t.active_plan = some p)
    (hfind : p.steps.find? (fun x => x.number = n) = some s)
    (_hst : s.status = .failed) :
    findStatus (complete_step t n o).1 n = some StepStatus.done := by
  have h1 := find_markStepDone n o p.steps s hfind
  unfold complete_step
  rw [hplan]
  simp only [hfind]
  cases hnp : markNextPending (markStepDone n o p.steps) with
  | none => simp [findStatus, h1]
  | some pr =>
    obtain ⟨steps2, m⟩ := pr
    have h2 := markNextPending_find n (markStepDone n o p.steps) steps2 m hnp
      { s with status := .done, outcome := some o } h1 (by simp)
    simp [findStatus, h2]

/-- Witness for the amended C7: a single-step plan whose step 1 failed
three times is `FAILED`; completing step 1 afterwards marks it `DONE`. -/
theorem complete_step_overrides_failed_witness :
    findStatus ((complete_step (fail_step (fail_step (fail_step (create_plan {} "g" [{}] "w")
        1 "x").1 1 "x").1 1 "x").1 1 "done").1) 1 = some StepStatus.done :=
  complete_step_overrides_failed
    (fail_step (fail_step (fail_step (create_plan {} "g" [{}] "w") 1 "x").1 1 "x").1 1 "x").1
    { goal := "g",
      steps := [{ number := 1, description := "Step 1", tool := "unknown", status := .failed,
                  outcome := some "FAILED after 3 attempts: x", attempts := 3 }],
      done_when := "w", state := .executing, current_step := 1 }
    1
    { number := 1, description := "Step 1", tool := "unknown", status := .failed,
      outcome := some "FAILED after 3 attempts: x", attempts := 3 }
    "done" (by decide) (by decide) rfl

/-- C7 counterexample: in a two-step plan, step 1 becomes `FAILED` after
three failures, yet a subsequent `complete_step(1, ...)` marks it `DONE` —
refuting "no later operation on the tracker marks that step DONE". -/
theorem failed_step_completed_anyway :
    findStatus (fail_step (fail_step (fail_step (create_plan {} "g" [{}, {}] "w") 1 "x").1
        1 "x").1 1 "x").1 1 = some StepStatus.failed ∧
      findStatus ((complete_step (fail_step (fail_step (fail_step (create_plan {} "g" [{}, {}]
        "w") 1 "x").1 1 "x").1 1 "x").1 1 "ok").1) 1 = some StepStatus.done := by
  exact ⟨rfl, rfl⟩

/-- C6 counterexample: from a fresh three-step plan (step 1 `IN_PROGRESS`),
the single call `complete_step(2, ...)` — legal per the claim, which allows
any sequence of tracker calls — marks step 2 `DONE` and promotes step 3 to
`IN_PROGRESS` while step 1 remains `IN_PROGRESS`: two steps are
`IN_PROGRESS` at once, refuting the invariant as stated. -/
theorem complete_step_out_of_order_two_in_progress :
    trackerInProgress ((complete_step (create_plan {} "g" [{}, {}, {}] "w") 2 "ok").1) = 2 :=
  rfl

theorem inProgressCount_cons (x : GoalStep) (xs : List GoalStep) :
    inProgressCount (x :: xs) =
      (if x.status = StepStatus.in_progress then 1 else 0) + inProgressCount xs := by
  unfold inProgressCount
  by_cases hx : x.status = StepStatus.in_progress
  · simp [List.filter_cons, hx, Nat.add_comm]
  · simp [List.filter_cons, hx]

theorem inProgressCount_zero (l : List GoalStep)
    (h : ∀ x ∈ l, x.status ≠ StepStatus.in_progress) : inProgressCount l = 0 := by
  induction l with
  | nil => rfl
  | cons a rest ih =>
    rw [inProgressCount_cons, if_neg (h a (List.mem_cons_self a rest))]
    simp [ih (fun x hx => h x (List.mem_cons_of_mem a hx))]

theorem mkGoalSteps_status :
    ∀ (ds : List StepDict) (i : Nat) (x : GoalStep), x ∈ mkGoalSteps i ds →
      x.status = StepStatus.pending := by
  intro ds
  induction ds with
  | nil => intro i x hx; simp [mkGoalSteps] at hx
  | cons d rest ih =>
    intro i x hx
    simp only [mkGoalSteps] at hx
    rcases List.mem_cons.mp hx with h | h
    · rw [h]
    · exact ih (i + 1) x h

theorem create_plan_in_progress_le (t : GoalTracker) (g : String) (ds : List StepDict)
    (dw : String) : trackerInProgress (create_plan t g ds dw) ≤ 1 := by
  unfold create_plan trackerInProgress
  dsimp only
  cases hmk : mkGoalSteps 1 ds with
  | nil => simp [inProgressCount]
  | cons s rest =>
    have hrest : inProgressCount rest = 0 := by
      apply inProgressCount_zero
      intro x hx
      have hmem : x ∈ mkGoalSteps 1 ds := by
        rw [hmk]
        exact List.mem_cons_of_mem _ hx
      rw [mkGoalSteps_status ds 1 x hmem]
      simp
    simp [inProgressCount_cons, hrest]

theorem markStepDone_count (n : Int) (o : String) :
    ∀ (l : List GoalStep) (s : GoalStep), l.find? (fun x => x.number = n) = some s →
      s.status = StepStatus.in_progress →
      inProgressCount l = inProgressCount (markStepDone n o l) + 1 := by
  intro l
  induction l with
  | nil => intro s h; simp at h
  | cons a rest ih =>
    intro s h hs
    by_cases ha : a.number = n
    · rw [List.find?_cons_of_pos _ (by simp [ha])] at h
      cases h
      simp only [markStepDone, if_pos ha]
      rw [inProgressCount_cons, inProgressCount_cons]
      simp [hs]
      omega
    · rw [List.find?_cons_of_neg _ (by simp [ha])] at h
      simp only [markStepDone, if_neg ha]
      rw [inProgressCount_cons, inProgressCount_cons]
      have := ih s h hs
      omega

theorem markNextPending_count :
    ∀ (l l' : List GoalStep) (m : Int), markNextPending l = some (l', m) →
      inProgressCount l' = inProgressCount l + 1 := by
  intro l
  induction l with
  | nil =>
    intro l' m h
    simp [markNextPending] at h
  | cons a rest ih =>
    intro l' m h
    by_cases hp : a.status = StepStatus.pending
    · simp only [markNextPending, if_pos hp] at h
      cases h
      rw [inProgressCount_cons, inProgressCount_cons]
      rw [hp]
      simp
      omega
    · simp only [markNextPending, if_neg hp] at h
      rcases Option.map_eq_some'.mp h with ⟨⟨l'', m''⟩, hrest, heq⟩
      cases heq
      dsimp only
      rw [inProgressCount_cons, inProgressCount_cons]
      have := ih l'' m'' hrest
      omega

theorem failUpdate_status_le (r : String) (a : GoalStep) :
    (if (failUpdate r a).status = StepStatus.in_progress then 1 else 0) ≤
      (if a.status = StepStatus.in_progress then 1 else 0) := by
  unfold failUpdate
  dsimp only
  split
  · simp
  · simp

theorem failSteps_count (n : Int) (r : String) :
    ∀ l : List GoalStep, inProgressCount (failSteps n r l) ≤ inProgressCount l := by
  intro l
  induction l with
  | nil => simp [failSteps]
  | cons a rest ih =>
    by_cases ha : a.number = n
    · simp only [failSteps, if_pos ha]
      rw [inProgressCount_cons, inProgressCount_cons]
      have := failUpdate_status_le r a
      omega
    · simp only [failSteps, if_neg ha]
      rw [inProgressCount_cons, inProgressCount_cons]
      omega

/-- Amended C6: the at-most-one-`IN_PROGRESS` invariant holds for every
tracker state reachable by `create_plan` / `complete_step` / `fail_step`
sequences in which each `complete_step` call targets the step currently
`IN_PROGRESS`.  (Unrestricted `complete_step` calls can break it — see the
counterexample — because the source promotes the first `PENDING` step
without demoting the step that was in progress.) -/
theorem guarded_at_most_one_in_progress (t : GoalTracker) (h : ReachableGuarded t) :
    trackerInProgress t ≤ 1 := by
  induction h with
  | init => decide
  | create t g ds dw hr ih => exact create_plan_in_progress_le t g ds dw
  | complete t n o hr hip ih =>
    unfold findStatus at hip
    cases hpl : t.active_plan with
    | none =>
      rw [hpl] at hip
      simp at hip
    | some p =>
      rw [hpl] at hip
      simp only [Option.some_bind] at hip
      rcases Option.map_eq_some'.mp hip with ⟨s, hfind, hs⟩
      simp only [trackerInProgress, hpl] at ih
      have hm := markStepDone_count n o p.steps s hfind hs
      unfold complete_step
      rw [hpl]
      simp only [hfind]
      cases hnp : markNextPending (markStepDone n o p.steps) with
      | none =>
        simp only [trackerInProgress]
        omega
      | some pr =>
        obtain ⟨steps2, m⟩ := pr
        have hm2 := markNextPending_count (markStepDone n o p.steps) steps2 m hnp
        simp only [trackerInProgress]
        omega
  | fail t n r hr ih =>
    cases hpl : t.active_plan with
    | none =>
      simp only [fail_step, hpl]
      exact ih
    | some p =>
      simp only [trackerInProgress, hpl] at ih
      simp only [fail_step, hpl]
      cases hfind : p.steps.find? (fun x => x.number = n) with
      | none =>
        simp only [hfind]
        simp only [trackerInProgress, hpl]
        exact ih
      | some s =>
        simp only [hfind]
        simp only [trackerInProgress]
        have := failSteps_count n r p.steps
        omega

/-- Witness for the amended C6: completing the in-progress step 1 of a
fresh two-step plan keeps at most one step `IN_PROGRESS`. -/
theorem guarded_at_most_one_in_progress_witness :
    trackerInProgress ((complete_step (create_plan {} "g" [{}, {}] "w") 1 "ok").1) ≤ 1 :=
  guarded_at_most_one_in_progress ((complete_step (create_plan {} "g" [{}, {}] "w") 1 "ok").1)
    (ReachableGuarded.complete (create_plan {} "g" [{}, {}] "w") 1 "ok"
      (ReachableGuarded.create {} "g" [{}, {}] "w" ReachableGuarded.init) (by decide))

theorem mkGoalSteps_length : ∀ (ds : List StepDict) (i : Nat),
    (mkGoalSteps i ds).length = ds.length := by
  intro ds
  induction ds with
  | nil => intro i; rfl
  | cons d rest ih => intro i; simp [mkGoalSteps, ih]

theorem mkGoalSteps_number : ∀ (ds : List StepDict) (i j : Nat), j < ds.length →
    ((mkGoalSteps i ds).get? j).map (fun s => s.number) = some ((i + j : Nat) : Int) := by
  intro ds
  induction ds with
  | nil => intro i j hj; simp at hj
  | cons d rest ih =>
    intro i j hj
    cases j with
    | zero => simp [mkGoalSteps]
    | succ j' =>
      have hlt : j' < rest.length := by
        simp at hj
        omega
      have hidx : i + (j' + 1) = (i + 1) + j' := by omega
      simp only [mkGoalSteps, List.get?_cons_succ]
      rw [ih (i + 1) j' hlt]
      rw [hidx]

theorem find_number_eq_get :
    ∀ (l : List GoalStep) (i : Nat),
      (∀ j, j < l.length → (l.get? j).map (fun s => s.number) = some ((i + j : Nat) : Int)) →
      ∀ k : Nat, i ≤ k → k < i + l.length →
        l.find? (fun s => s.number = (k : Int)) = l.get? (k - i) := by
  intro l
  induction l with
  | nil =>
    intro i hnum k hk1 hk2
    simp at hk2
    omega
  | cons a rest ih =>
    intro i hnum k hk1 hk2
    have ha : a.number = (i : Int) := by
      have h0 := hnum 0 (by simp)
      simpa using h0
    by_cases hk : k = i
    · subst hk
      rw [List.find?_cons_of_pos _ (by simp [ha])]
      simp [Nat.sub_self]
    · have hki : i < k := lt_of_le_of_ne hk1 (Ne.symm hk)
      have hnum' : ∀ j, j < rest.length →
          (rest.get? j).map (fun s => s.number) = some (((i + 1) + j : Nat) : Int) := by
        intro j hj
        have hh := hnum (j + 1) (by simp; omega)
        rw [List.get?_cons_succ] at hh
        have : i + (j + 1) = (i + 1) + j := by omega
        rw [this] at hh
        exact hh
      rw [List.find?_cons_of_neg _ (by simp [ha]; omega)]
      have hsub : k - i = (k - (i + 1)) + 1 := by omega
      rw [hsub, List.get?_cons_succ]
      exact ih (i + 1) hnum' k (by omega) (by simp at hk2; omega)

/-- C10: `create_plan` with a non-empty list of `n` step dicts numbers the
created steps 1..n by list position (whatever `number` values the input
dicts carry are ignored); the first positional step is `IN_PROGRESS`, every
other one `PENDING`, `current_step` is 1, and the step lookup used by
`complete_step`/`fail_step` (first step whose `number` matches) resolves
each number `k` in 1..n to exactly the step at position `k - 1`. -/
theorem create_plan_positional (t : GoalTracker) (g dw : String) (ds : List StepDict)
    (hne : ds ≠ []) :
    ∃ p, (create_plan t g ds dw).active_plan = some p ∧
      p.steps.length = ds.length ∧ p.current_step = 1 ∧
      (∀ j, j < ds.length →
        (p.steps.get? j).map (fun s => s.number) = some ((1 + j : Nat) : Int)) ∧
      (p.steps.get? 0).map (fun s => s.status) = some StepStatus.in_progress ∧
      (∀ j, 0 < j → j < ds.length →
        (p.steps.get? j).map (fun s => s.status) = some StepStatus.pending) ∧
      (∀ k : Nat, 1 ≤ k → k ≤ ds.length →
        p.steps.find? (fun s => s.number = (k : Int)) = p.steps.get? (k - 1)) := by
  cases ds with
  | nil => exact absurd rfl hne
  | cons d rest =>
    refine ⟨_, rfl, ?_, rfl, ?_, ?_, ?_, ?_⟩
    · simp [create_plan, mkGoalSteps, mkGoalSteps_length]
    · intro j hj
      cases j with
      | zero => simp [create_plan, mkGoalSteps]
      | succ j' =>
        have hlt : j' < rest.length := by
          simp at hj
          omega
        simp only [create_plan, mkGoalSteps, List.get?_cons_succ]
        rw [mkGoalSteps_number rest 2 j' hlt]
        have : (2 : Nat) + j' = 1 + (j' + 1) := by omega
        rw [this]
    · simp [create_plan, mkGoalSteps]
    · intro j hj0 hj
      cases j with
      | zero => omega
      | succ j' =>
        have hlt : j' < rest.length := by
          simp at hj
          omega
        simp only [create_plan, mkGoalSteps, List.get?_cons_succ]
        have hlen : j' < (mkGoalSteps 2 rest).length := by
          rw [mkGoalSteps_length]
          exact hlt
        rw [List.get?_eq_get hlen]
        have hmem := List.get_mem (mkGoalSteps 2 rest) j' hlen
        rw [Option.map_some']
        rw [mkGoalSteps_status rest 2 _ hmem]
    · intro k hk1 hk2
      apply find_number_eq_get _ 1
      · intro j hj
        cases j with
        | zero => simp [create_plan, mkGoalSteps]
        | succ j' =>
          have hlt : j' < rest.length := by
            simp only [create_plan, mkGoalSteps] at hj
            simp at hj
            rw [mkGoalSteps_length] at hj
            omega
          simp only [create_plan, mkGoalSteps, List.get?_cons_succ]
          rw [mkGoalSteps_number rest 2 j' hlt]
          have : (2 : Nat) + j' = 1 + (j' + 1) := by omega
          rw [this]
      · omega
      · have : ((mkGoalSteps 2 rest)).length = rest.length := mkGoalSteps_length rest 2
        simp only [create_plan, mkGoalSteps]
        simp only [List.length_cons] at hk2
        simp [List.length_cons, this]
        omega

/-- Witness for C10 at a concrete two-dict list whose first dict carries a
stray `number := 99` (ignored by `create_plan`). -/
theorem create_plan_positional_witness :
    ∃ p, (create_plan {} "g" [⟨some "alpha", none, none, some 99⟩, {}] "w").active_plan =
        some p ∧
      p.steps.length = 2 ∧ p.current_step = 1 ∧
      (∀ j, j < 2 → (p.steps.get? j).map (fun s => s.number) = some ((1 + j : Nat) : Int)) ∧
      (p.steps.get? 0).map (fun s => s.status) = some StepStatus.in_progress ∧
      (∀ j, 0 < j → j < 2 →
        (p.steps.get? j).map (fun s => s.status) = some StepStatus.pending) ∧
      (∀ k : Nat, 1 ≤ k → k ≤ 2 →
        p.steps.find? (fun s => s.number = (k : Int)) = p.steps.get? (k - 1)) :=
  create_plan_positional {} "g" "w" [⟨some "alpha", none, none, some 99⟩, {}] (by decide)

theorem record_tool_call_state (t : GoalTracker) (c : String) :
    (record_tool_call t c).1 =
      { t with recent_tool_calls := trimRecent (t.recent_tool_calls ++ [c]),
               consecutive_observe_count :=
                 if c = "see_screen" then t.consecutive_observe_count + 1 else 0 } := by
  unfold record_tool_call
  by_cases hc : c = "see_screen"
  · by_cases h2 : t.consecutive_observe_count + 1 ≥ 2
    · simp [hc, h2]
    · simp [hc, h2]
  · simp [hc]

theorem record_tool_call_snd (t : GoalTracker) (c : String) :
    (record_tool_call t c).2 =
      if c = "see_screen" ∧ t.consecutive_observe_count + 1 ≥ 2
      then some "ANTI-LOOP WARNING: consecutive see_screen calls"
      else dominantWarning (trimRecent (t.recent_tool_calls ++ [c])) := by
  unfold record_tool_call
  by_cases hc : c = "see_screen"
  · by_cases h2 : t.consecutive_observe_count + 1 ≥ 2
    · simp [hc, h2]
    · simp [hc, h2]
  · simp [hc]

theorem trailingObs_append (l : List String) (c : String) :
    trailingObs (l ++ [c]) = if c = "see_screen" then trailingObs l + 1 else 0 := by
  unfold trailingObs
  rw [List.reverse_append]
  simp [leadObs]

theorem trim_lastN (l : List String) (c : String) :
    trimRecent (lastN 10 l ++ [c]) = lastN 10 (l ++ [c]) := by
  unfold trimRecent lastN max_tool_history
  by_cases h : l.length + 1 ≤ 10
  · have h0 : l.length - 10 = 0 := by omega
    rw [h0, List.drop_zero]
    rw [if_neg (by simp; omega)]
    have h1 : (l ++ [c]).length - 10 = 0 := by simp; omega
    rw [h1, List.drop_zero]
  · have hge : 10 ≤ l.length := by omega
    have hlen : (l.drop (l.length - 10)).length = 10 := by
      rw [List.length_drop]
      omega
    rw [if_pos (by simp [hlen])]
    rw [List.drop_append_of_le_length (by omega)]
    rw [List.drop_append_of_le_length (by simp)]
    rw [List.drop_drop]
    congr 2
    simp
    omega

theorem replay_state (pre : List String) :
    (replayCalls pre).recent_tool_calls = lastN 10 pre ∧
      (replayCalls pre).consecutive_observe_count = trailingObs pre := by
  induction pre using List.reverseRecOn with
  | nil => exact ⟨rfl, rfl⟩
  | append_singleton l c ihl =>
    have hr : replayCalls (l ++ [c]) = (record_tool_call (replayCalls l) c).1 := by
      unfold replayCalls
      rw [List.foldl_append]
      rfl
    obtain ⟨h1, h2⟩ := ihl
    rw [hr, record_tool_call_state]
    constructor
    · dsimp only
      rw [h1]
      exact trim_lastN l c
    · dsimp only
      rw [h2, trailingObs_append]

theorem one_le_trailingObs_iff (l : List String) :
    1 ≤ trailingObs l ↔ l.getLast? = some "see_screen" := by
  unfold trailingObs
  rw [← List.head?_reverse]
  cases hrev : l.reverse with
  | nil => simp [leadObs]
  | cons x xs =>
    by_cases hx : x = "see_screen"
    · simp [leadObs, hx]
    · simp [leadObs, hx]

theorem lastN_length (n : Nat) (l : List String) : (lastN n l).length = min l.length n := by
  unfold lastN
  rw [List.length_drop]
  omega

theorem lastN_lastN (l : List String) : lastN 7 (lastN 10 l) = lastN 7 l := by
  unfold lastN
  rw [List.length_drop, List.drop_drop]
  congr 1
  omega

theorem dominantWarning_isSome (u : List String) :
    (dominantWarning u).isSome = true ↔ (7 ≤ u.length ∧ 5 ≤ maxCount (lastN 7 u)) := by
  unfold dominantWarning
  by_cases h7 : u.length ≥ 7
  · rw [if_pos h7]
    by_cases h5 : maxCount (lastN 7 u) ≥ 5
    · simp [h5, h7]
    · simp [h5]
  · rw [if_neg h7]
    simp [h7]

theorem exists_of_le_foldr_max : ∀ (xs : List Nat) (k : Nat), 0 < k →
    k ≤ xs.foldr max 0 → ∃ v ∈ xs, k ≤ v := by
  intro xs
  induction xs with
  | nil =>
    intro k hk h
    simp at h
    omega
  | cons a rest ih =>
    intro k hk h
    simp only [List.foldr_cons] at h
    rcases le_max_iff.mp h with h | h
    · exact ⟨a, List.mem_cons_self a rest, h⟩
    · obtain ⟨v, hv, hkv⟩ := ih k hk h
      exact ⟨v, List.mem_cons_of_mem a hv, hkv⟩

theorem le_foldr_max : ∀ (xs : List Nat) (v : Nat), v ∈ xs → v ≤ xs.foldr max 0 := by
  intro xs
  induction xs with
  | nil =>
    intro v hv
    simp at hv
  | cons a rest ih =>
    intro v hv
    rcases List.mem_cons.mp hv with h | h
    · subst h
      exact le_max_left _ _
    · exact le_trans (ih v h) (le_max_right _ _)

theorem maxCount_ge_iff (w : List String) :
    5 ≤ maxCount w ↔ ∃ x ∈ w, 5 ≤ w.count x := by
  unfold maxCount
  constructor
  · intro h
    obtain ⟨v, hvmem, hv⟩ := exists_of_le_foldr_max _ 5 (by norm_num) h
    rcases List.mem_map.mp hvmem with ⟨x, hx, rfl⟩
    exact ⟨x, hx, hv⟩
  · rintro ⟨x, hx, hcx⟩
    exact le_trans hcx (le_foldr_max _ _ (List.mem_map_of_mem _ hx))

/-- C8: starting from a fresh tracker and any prior call sequence `pre`,
`record_tool_call` returns a warning on the next call `tool` exactly when
(a) `tool` is the observation tool `see_screen` and the previous call was
also `see_screen` (the consecutive counter, reset by every other tool, has
reached 2), or (b) at least 7 calls have been recorded including this one
and some single tool accounts for 5 or more of the most recent 7 calls; in
all other cases it returns `none`. -/
theorem record_tool_call_warning_iff (pre : List String) (tool : String) :
    ((record_tool_call (replayCalls pre) tool).2).isSome = true ↔
      ((tool = "see_screen" ∧ pre.getLast? = some "see_screen") ∨
        (7 ≤ pre.length + 1 ∧
          ∃ x ∈ lastN 7 (pre ++ [tool]), 5 ≤ (lastN 7 (pre ++ [tool])).count x)) := by
  obtain ⟨h1, h2⟩ := replay_state pre
  rw [record_tool_call_snd]
  have hdom : (dominantWarning (lastN 10 (pre ++ [tool]))).isSome = true ↔
      (7 ≤ pre.length + 1 ∧
        ∃ x ∈ lastN 7 (pre ++ [tool]), 5 ≤ (lastN 7 (pre ++ [tool])).count x) := by
    rw [dominantWarning_isSome, lastN_length, lastN_lastN, maxCount_ge_iff]
    constructor
    · rintro ⟨ha, hb⟩
      refine ⟨?_, hb⟩
      simp at ha
      omega
    · rintro ⟨ha, hb⟩
      refine ⟨?_, hb⟩
      simp
      omega
  by_cases hcond : tool = "see_screen" ∧ (replayCalls pre).consecutive_observe_count + 1 ≥ 2
  · rw [if_pos hcond]
    have hlast : pre.getLast? = some "see_screen" := by
      apply (one_le_trailingObs_iff pre).mp
      have := hcond.2
      rw [h2] at this
      omega
    simp [hcond.1, hlast]
  · rw [if_neg hcond]
    rw [h1, trim_lastN, hdom]
    have hnA : ¬(tool = "see_screen" ∧ pre.getLast? = some "see_screen") := by
      rintro ⟨hta, htb⟩
      apply hcond
      refine ⟨hta, ?_⟩
      rw [h2]
      have := (one_le_trailingObs_iff pre).mpr htb
      omega
    constructor
    · intro hb
      exact Or.inr hb
    · rintro (ha | hb)
      · exact absurd ha hnA
      · exact hb

end Nexus
